import Mathlib

/-
Verification of the pycroscopy packaging manifest (`setup.py`).

The repository consists of a single packaging script.  Its behaviour is:

1. `here = path.abspath(path.dirname(__file__))`
2. read `path.join(here, 'README.md')` into `long_description`
3. call `setup(...)` with a fixed set of keyword arguments; the only argument
   depending on the read file is `long_description`, and `packages` is
   `find_packages(exclude='tests')` over the directories present on disk.

We embed this shallowly: the filesystem is an abstract map from paths
(component lists) to optional file contents, the set of candidate package
directories found by `find_packages`' directory walk is an abstract list of
dotted package names, and the `setup(...)` call is the construction of a
`Manifest` record carrying exactly the keyword arguments of the source.
-/

namespace Pycroscopy

/-- A Python value usable as the `exclude` argument of
`setuptools.find_packages`: either a string or a list of strings.
The source passes the string `'tests'`. -/
inductive PyVal where
  | str (s : String)
  | list (l : List String)
deriving Repr, DecidableEq

/-- Python iteration over such a value: iterating a string yields its
one-character substrings, iterating a list yields its elements.
`find_packages` unpacks its `exclude` argument this way (`*exclude`). -/
def pyIter : PyVal → List String
  | .str s => s.toList.map (fun c => String.mk [c])
  | .list l => l

/-- Core of Python's `fnmatch.fnmatchcase` on character lists: the first
argument is the pattern, the second the name.  `*` matches any (possibly
empty) run of characters and `?` matches exactly one character; every other
character matches itself.  Character classes (`[...]`) are not modelled
because no pattern in this repository or in setuptools' built-in filters
uses them. -/
def fnmatchChars : List Char → List Char → Bool
  | [], name => name.isEmpty
  | '*' :: ps, name =>
      (List.range (name.length + 1)).any (fun k => fnmatchChars ps (name.drop k))
  | '?' :: ps, name =>
      match name with
      | [] => false
      | _ :: cs => fnmatchChars ps cs
  | p :: ps, name =>
      match name with
      | [] => false
      | c :: cs => (p == c) && fnmatchChars ps cs

/-- `fnmatch.fnmatchcase(name, pat)`: case-sensitive glob match of the whole
name against the pattern. -/
def fnmatchCase (name pat : String) : Bool :=
  fnmatchChars pat.toList name.toList

/-- `setuptools.PackageFinder._build_filter(*patterns)`: a predicate holding
of a name when some pattern matches it. -/
def buildFilter (patterns : List String) (name : String) : Bool :=
  patterns.any (fnmatchCase name)

/-- `setuptools.find_packages(where='.', exclude, include=('*',))`, modelled
over an abstract list `candidates` of the dotted package names its directory
walk discovers (in walk order).  Following setuptools, the exclusion filter
is built from the built-in patterns `ez_setup` and `*__pycache__` together
with the unpacked elements of the caller's `exclude` argument, and a
candidate is kept when the include filter (default pattern `*`) matches it
and the exclusion filter does not. -/
def find_packages (candidates : List String) (exclude : PyVal) : List String :=
  let excludePatterns := "ez_setup" :: "*__pycache__" :: pyIter exclude
  let includePatterns := ["*"]
  (candidates.filter (fun p => buildFilter includePatterns p)).filter
    (fun p => !(buildFilter excludePatterns p))

/-- The keyword arguments passed to `setup(...)` in `setup.py`, one field per
keyword, in source order. -/
structure Manifest where
  name : String
  version : String
  description : String
  long_description : String
  classifiers : List String
  packages : List String
  url : String
  license : String
  author : String
  author_email : String
  dependency : String
  dependency_links : List String
  install_requires : List String
  test_suite : String
  tests_require : String
  include_package_data : Bool
deriving Repr, DecidableEq

/-- The classifier list of the `setup(...)` call, verbatim. -/
def classifiersList : List String :=
  [ "Development Status :: 2 - Pre-Alpha"
  , "Environment :: Console"
  , "Intended Audience :: Science/Research"
  , "License :: OSI Approved :: MIT License"
  , "Natural Language :: English"
  , "Operating System :: OS Independent"
  , "Programming Language :: Cython"
  , "Programming Language :: Python :: 2.7"
  , "Programming Language :: Python :: Implementation :: CPython"
  , "Topic :: Scientific/Engineering :: Chemistry"
  , "Topic :: Scientific / Engineering :: Information Analysis"
  , "Topic :: Scientific/Engineering :: Physics" ]

/-- The `setup(...)` call of `setup.py`: builds the manifest from the
candidate package directories on disk and the text read from `README.md`.
Every field except `long_description` and `packages` is a literal from the
source; `packages` is `find_packages(exclude='tests')` (note: the string
`'tests'`, exactly as in the source). -/
def buildManifest (candidates : List String) (long_description : String) : Manifest :=
  { name := "pyCroscopy"
  , version := "0.0a1"
  , description := "A suite of Python libraries for high performance scientific computing of microscopy data."
  , long_description := long_description
  , classifiers := classifiersList
  , packages := find_packages candidates (PyVal.str "tests")
  , url := "http://github.com/pycroscopy/pyCroscopy"
  , license := "MIT"
  , author := "S. Somnath, C. Ryan, N. Laanait"
  , author_email := "pycroscopy@gmail.com"
  , dependency := ""
  , dependency_links := [""]
  , install_requires := [""]
  , test_suite := "nose.collector"
  , tests_require := "Nose"
  , include_package_data := true }

/-- Normalisation performed by `os.path.abspath` on an already-rooted
component list: `.` components are dropped and `..` removes the preceding
component (at the root, `..` stays at the root, as in POSIX `abspath`). -/
def normalizePath (comps : List String) : List String :=
  comps.foldl
    (fun acc c =>
      if c = "." then acc
      else if c = ".." then acc.dropLast
      else acc ++ [c])
    []

/-- The state of one invocation of the script: the process's current working
directory (as an absolute component list) and the path the interpreter bound
to `__file__`, which may be absolute or relative to the working directory. -/
structure RunEnv where
  cwd : List String
  fileIsAbs : Bool
  fileComps : List String
deriving Repr, DecidableEq

/-- `os.path.abspath(p)`: a relative path is joined onto the working
directory, then the result is normalised. -/
def abspathOf (cwd : List String) (isAbs : Bool) (comps : List String) : List String :=
  normalizePath (if isAbs then comps else cwd ++ comps)

/-- `here = path.abspath(path.dirname(__file__))` (line 6 of the source);
`path.dirname` drops the last path component. -/
def hereOf (env : RunEnv) : List String :=
  abspathOf env.cwd env.fileIsAbs env.fileComps.dropLast

/-- `path.join(here, 'README.md')` (line 7 of the source): joining a
relative single component appends it. -/
def readmePath (env : RunEnv) : List String :=
  hereOf env ++ ["README.md"]

/-- The absolute location of the setup script itself:
`path.abspath(__file__)`. -/
def scriptLocation (env : RunEnv) : List String :=
  abspathOf env.cwd env.fileIsAbs env.fileComps

/-- The one error the script can raise: the `IOError`/`OSError` from
`open` when the README is absent or unreadable at the opened path. -/
inductive ScriptError where
  | fileAccess (path : List String)
deriving Repr, DecidableEq

/-- One run of `setup.py` over an abstract filesystem `fs` (mapping an
absolute path to the contents of the readable file there, or `none`):
open and read `README.md` next to the script, then call `setup(...)`.
A missing or unreadable README surfaces as the file-access error; nothing
else in the script can fail. -/
def runScript (env : RunEnv) (fs : List String → Option String)
    (candidates : List String) : Except ScriptError Manifest :=
  match fs (readmePath env) with
  | none => .error (.fileAccess (readmePath env))
  | some s => .ok (buildManifest candidates s)

/-- Observable effects of one run, in program order. -/
inductive Effect where
  | openReadme (path : List String)
  | setupCall (m : Manifest)
deriving Repr, DecidableEq

/-- Whether an effect is an invocation of `setup`. -/
def isSetupCall : Effect → Bool
  | .setupCall _ => true
  | .openReadme _ => false

/-- The effect trace of one run: the `open`/`read` of the README happens
strictly before the `setup(...)` call (lines 7-10 of the source), and when
the read fails the script aborts with no further effect. -/
def scriptTrace (env : RunEnv) (fs : List String → Option String)
    (candidates : List String) : List Effect :=
  match fs (readmePath env) with
  | none => [.openReadme (readmePath env)]
  | some s => [.openReadme (readmePath env), .setupCall (buildManifest candidates s)]

/-- Python's `str.strip()`: remove leading and trailing whitespace. -/
def pyStrip (s : String) : String :=
  String.mk (((s.toList.dropWhile Char.isWhitespace).reverse.dropWhile
    Char.isWhitespace).reverse)

/-- Whether a (stripped) requirement line is a comment line. -/
def isCommentLine (l : String) : Bool :=
  match l.toList with
  | [] => false
  | c :: _ => c == '#'

/-- `pkg_resources.yield_lines`, through which setuptools parses the
`install_requires` list into requirement declarations: each entry is
stripped, and blank entries and comment lines are dropped.  The surviving
lines are the dependency declarations. -/
def yieldLines (entries : List String) : List String :=
  (entries.map pyStrip).filter (fun l => !(l == "" || isCommentLine l))

/-- Whether a version string carries a PEP 440 pre-release marker: a
nonempty dotted-numeric release segment followed by a pre-release tag
(`a`, `b`, `c`, `rc`, `alpha`, `beta`, `pre` or `preview`) and a number. -/
def isPreReleaseVersion (v : String) : Bool :=
  let cs := v.toList
  let release := cs.takeWhile (fun c => c.isDigit || c == '.')
  let rest := cs.drop release.length
  let tag := rest.takeWhile Char.isAlpha
  let num := rest.drop tag.length
  decide (release ≠ []) &&
  (tag == ['a'] || tag == ['b'] || tag == ['c'] || tag == ['r', 'c'] ||
    tag == ['a', 'l', 'p', 'h', 'a'] || tag == ['b', 'e', 't', 'a'] ||
    tag == ['p', 'r', 'e'] || tag == ['p', 'r', 'e', 'v', 'i', 'e', 'w']) &&
  decide (num ≠ []) && num.all Char.isDigit

/-- A filesystem with no readable file anywhere. -/
def fsNone : List String → Option String := fun _ => none

/-- A filesystem whose every path reads as the text `hello`. -/
def fsHello : List String → Option String := fun _ => some "hello"

/-- A run started from `/home/alice` with `__file__` given as the relative
path `proj/setup.py`. -/
def envA : RunEnv :=
  ⟨["home", "alice"], false, ["proj", "setup.py"]⟩

/-- A run started from `/home` with `__file__` given as the relative path
`alice/proj/setup.py`: a different working directory, but the same script
location as `envA`. -/
def envB : RunEnv :=
  ⟨["home"], false, ["alice", "proj", "setup.py"]⟩

/-- Appending a component that is neither `.` nor `..` to a path commutes
with normalisation. -/
theorem normalizePath_append_snoc (l : List String) (c : String)
    (h1 : c ≠ ".") (h2 : c ≠ "..") :
    normalizePath (l ++ [c]) = normalizePath l ++ [c] := by
  unfold normalizePath
  rw [List.foldl_append]
  simp [h1, h2]

/-- The script's absolute location is its containing directory (`here`)
followed by its final path component. -/
theorem scriptLocation_eq_here_snoc (env : RunEnv) (i : List String) (c : String)
    (hf : env.fileComps = i ++ [c]) (h1 : c ≠ ".") (h2 : c ≠ "..") :
    scriptLocation env = hereOf env ++ [c] := by
  unfold scriptLocation hereOf abspathOf
  rw [hf]
  cases hA : env.fileIsAbs
  · simp only [hA, Bool.false_eq_true, if_false, List.dropLast_concat,
      ← List.append_assoc]
    exact normalizePath_append_snoc _ _ h1 h2
  · simp only [hA, if_true, List.dropLast_concat]
    exact normalizePath_append_snoc _ _ h1 h2

/-- C1: the claim that the `find_packages(exclude='tests')` call excludes
every package named `tests` or under a `tests` directory is false on the
code as written: `exclude` is the string `'tests'`, which setuptools unpacks
character by character into the patterns `t`, `e`, `s`, `t`, `s`, so with
candidate packages `mypkg`, `tests`, `tests.unit` both `tests` and
`tests.unit` survive into the resulting packages list (only the
single-letter packages `t`, `e`, `s` would be excluded). -/
theorem C1_tests_not_excluded :
    "tests" ∈ (buildManifest ["mypkg", "tests", "tests.unit"] "readme").packages ∧
    "tests.unit" ∈ (buildManifest ["mypkg", "tests", "tests.unit"] "readme").packages ∧
    find_packages ["mypkg", "tests", "tests.unit", "t", "e", "s"] (PyVal.str "tests")
      = ["mypkg", "tests", "tests.unit"] := by
  refine ⟨?_, ?_, ?_⟩ <;> decide

/-- C2: the `install_requires` and `dependency_links` values passed to
`setup` declare no dependency: each is the singleton list containing the
empty string, and requirement-line parsing (which strips entries and drops
blank lines) yields no declaration from either. -/
theorem C2_empty_dependency_declarations (candidates : List String) (readme : String) :
    yieldLines (buildManifest candidates readme).install_requires = [] ∧
    yieldLines (buildManifest candidates readme).dependency_links = [] :=
  ⟨rfl, rfl⟩

/-- C3: a run of the script fails exactly when the filesystem has no
readable file at the expected README path, the failure is the file-access
error at that path, and no other error is raised. -/
theorem C3_fail_iff_readme_missing (env : RunEnv)
    (fs : List String → Option String) (candidates : List String) :
    ((∃ e, runScript env fs candidates = .error e) ↔ fs (readmePath env) = none) ∧
    ∀ e, runScript env fs candidates = .error e → e = .fileAccess (readmePath env) := by
  cases h : fs (readmePath env) <;> simp [runScript, h]

/-- C3 witness: on a filesystem with no README, the concrete run fails with
exactly the file-access error at the expected path. -/
theorem C3_witness :
    runScript envA fsNone [] = Except.error (ScriptError.fileAccess (readmePath envA)) := by
  obtain ⟨e, he⟩ := (C3_fail_iff_readme_missing envA fsNone []).1.mpr rfl
  have hfa := (C3_fail_iff_readme_missing envA fsNone []).2 e he
  exact hfa ▸ he

/-- C4: the values passed to `setup` for the required manifest fields
`name`, `version`, `license` and `author` are non-empty strings. -/
theorem C4_required_fields_nonempty (candidates : List String) (readme : String) :
    (buildManifest candidates readme).name ≠ "" ∧
    (buildManifest candidates readme).version ≠ "" ∧
    (buildManifest candidates readme).license ≠ "" ∧
    (buildManifest candidates readme).author ≠ "" := by
  refine ⟨?_, ?_, ?_, ?_⟩
  · show ("pyCroscopy" : String) ≠ ""
    decide
  · show ("0.0a1" : String) ≠ ""
    decide
  · show ("MIT" : String) ≠ ""
    decide
  · show ("S. Somnath, C. Ryan, N. Laanait" : String) ≠ ""
    decide

/-- C5: the read-and-assign step is deterministic in the README contents:
any two runs (possibly from different environments and filesystems) whose
README files hold the same text `s` both succeed and pass the identical
`long_description` string to `setup`. -/
theorem C5_long_description_deterministic
    (env₁ env₂ : RunEnv) (fs₁ fs₂ : List String → Option String)
    (c₁ c₂ : List String) (s : String)
    (h₁ : fs₁ (readmePath env₁) = some s) (h₂ : fs₂ (readmePath env₂) = some s) :
    runScript env₁ fs₁ c₁ = Except.ok (buildManifest c₁ s) ∧
    runScript env₂ fs₂ c₂ = Except.ok (buildManifest c₂ s) ∧
    (buildManifest c₁ s).long_description = (buildManifest c₂ s).long_description := by
  refine ⟨?_, ?_, rfl⟩ <;> simp [runScript, h₁, h₂]

/-- C5 witness: two concrete runs from different environments over a
filesystem whose README reads `hello` yield identical long descriptions. -/
theorem C5_witness :
    runScript envA fsHello [] = Except.ok (buildManifest [] "hello") ∧
    runScript envB fsHello ["x"] = Except.ok (buildManifest ["x"] "hello") ∧
    (buildManifest [] "hello").long_description
      = (buildManifest ["x"] "hello").long_description :=
  C5_long_description_deterministic envA envB fsHello fsHello [] ["x"] "hello" rfl rfl

/-- C6: the `long_description` passed to `setup` is exactly the text read
from the README file: for every README contents `s`, the constructed
manifest's `long_description` equals `s`. -/
theorem C6_long_description_eq_readme (candidates : List String) (s : String) :
    (buildManifest candidates s).long_description = s :=
  rfl

/-- C7: the manifest's `license` field is the string `MIT`, its `version`
field is the string `0.0a1`, which carries a PEP 440 pre-release (alpha)
marker, and the classifier list indeed contains
`Development Status :: 2 - Pre-Alpha`. -/
theorem C7_license_and_version (candidates : List String) (readme : String) :
    (buildManifest candidates readme).license = "MIT" ∧
    (buildManifest candidates readme).version = "0.0a1" ∧
    isPreReleaseVersion (buildManifest candidates readme).version = true ∧
    "Development Status :: 2 - Pre-Alpha" ∈ (buildManifest candidates readme).classifiers := by
  refine ⟨rfl, rfl, ?_, ?_⟩
  · show isPreReleaseVersion "0.0a1" = true
    decide
  · show "Development Status :: 2 - Pre-Alpha" ∈ classifiersList
    decide

/-- C8: the README path depends only on the script's absolute location, not
on the working directory: two runs whose `__file__` values resolve to the
same absolute script location (its final component being an ordinary name
such as `setup.py`) open the same path and produce identical outcomes over
any shared filesystem. -/
theorem C8_readme_path_independent_of_cwd
    (env₁ env₂ : RunEnv) (i₁ i₂ : List String) (c₁ c₂ : String)
    (hf₁ : env₁.fileComps = i₁ ++ [c₁]) (hc₁ : c₁ ≠ ".") (hc₁' : c₁ ≠ "..")
    (hf₂ : env₂.fileComps = i₂ ++ [c₂]) (hc₂ : c₂ ≠ ".") (hc₂' : c₂ ≠ "..")
    (hloc : scriptLocation env₁ = scriptLocation env₂)
    (fs : List String → Option String) (candidates : List String) :
    readmePath env₁ = readmePath env₂ ∧
    runScript env₁ fs candidates = runScript env₂ fs candidates := by
  rw [scriptLocation_eq_here_snoc env₁ i₁ c₁ hf₁ hc₁ hc₁',
    scriptLocation_eq_here_snoc env₂ i₂ c₂ hf₂ hc₂ hc₂'] at hloc
  have hhere : hereOf env₁ = hereOf env₂ :=
    (List.append_inj' hloc rfl).1
  have hpath : readmePath env₁ = readmePath env₂ := by
    unfold readmePath
    rw [hhere]
  exact ⟨hpath, by unfold runScript; rw [hpath]⟩

/-- C8 witness: the concrete runs `envA` (working directory `/home/alice`,
`__file__ = proj/setup.py`) and `envB` (working directory `/home`,
`__file__ = alice/proj/setup.py`) share a script location, hence open the
same README path and produce the same result. -/
theorem C8_witness :
    readmePath envA = readmePath envB ∧
    runScript envA fsHello ["p"] = runScript envB fsHello ["p"] :=
  C8_readme_path_independent_of_cwd envA envB ["proj"] ["alice", "proj"]
    "setup.py" "setup.py" rfl (by decide) (by decide) rfl (by decide) (by decide)
    (by decide) fsHello ["p"]

/-- C9: if reading the README fails, `setup` is never invoked: the trace of
a run whose filesystem has no file at the README path contains no
`setup`-call effect. -/
theorem C9_no_setup_on_read_error (env : RunEnv)
    (fs : List String → Option String) (candidates : List String)
    (h : fs (readmePath env) = none) :
    (scriptTrace env fs candidates).any isSetupCall = false := by
  simp [scriptTrace, h, isSetupCall]

/-- C9 witness: the concrete failing run performs no `setup` call. -/
theorem C9_witness :
    (scriptTrace envA fsNone []).any isSetupCall = false :=
  C9_no_setup_on_read_error envA fsNone [] rfl

/-- C10: every manifest field other than `long_description` is independent
of the README contents: overwriting `long_description` with a fixed value
makes the manifests of any two runs (over the same discovered package
candidates) equal, so all other keyword arguments passed to `setup` are
identical across runs. -/
theorem C10_fields_independent_of_readme (candidates : List String) (s₁ s₂ : String) :
    { buildManifest candidates s₁ with long_description := "" } =
    { buildManifest candidates s₂ with long_description := "" } :=
  rfl

end Pycroscopy
